import Mathlib

/-!
Verification of the rect-layer canvas editor: the gesture reducer
(`layer/moveStarted`, `layer/moved`, `layer/moveEnded`, `layer/resized`,
`layer/rotated`), the touch input normalizer, and the rotation-angle
geometry, embedded shallowly from the TypeScript source.

Numbers carried by pointer events and layer geometry are JavaScript
numbers; the reducer itself performs only additions and field copies, so
it is embedded over `ℚ`.  The rotation-angle computation (`Math.atan2`)
is embedded separately over `ℝ`.
-/

namespace RectLayer

/-- A JavaScript number as it can appear in the dynamically added `x`/`y`
properties written by the `layer/moved` case: either `NaN` or an actual
numeric value. -/
inductive JsNum where
  | nan
  | num (val : ℚ)
deriving DecidableEq

/-- JavaScript addition whose left operand may be `undefined` (the result of
reading an absent object property): `undefined + d` evaluates to `NaN`. -/
def jsAdd : Option ℚ → ℚ → JsNum
  | none, _ => .nan
  | some v, d => .num (v + d)

/-- interface Layer: id, width, height, positionX, positionY (pixels) and
rotate (radians).  The fields `propX`/`propY` model the `x`/`y` properties
that are absent on a freshly constructed layer (`none`) but are dynamically
added to the draft object by the assignments `layer.x = ...` / `layer.y = ...`
in the reducer's `layer/moved` case. -/
structure Layer where
  id : Int
  width : ℚ
  height : ℚ
  positionX : ℚ
  positionY : ℚ
  rotate : ℚ
  propX : Option JsNum := none
  propY : Option JsNum := none
deriving DecidableEq

/-- type Transform: the result of
`pick(layer, ['width','height','positionX','positionY','rotate'])`. -/
structure Transform where
  width : ℚ
  height : ℚ
  positionX : ℚ
  positionY : ℚ
  rotate : ℚ
deriving DecidableEq

/-- Reading the property `x` on a `Transform` value: `Transform` has no such
key, so the access (`const { x, y } = transform` in the `layer/moved` case)
yields JavaScript `undefined`, modelled as `none`. -/
def Transform.readX (_ : Transform) : Option ℚ := none

/-- Reading the absent property `y` on a `Transform` value, likewise
`undefined`. -/
def Transform.readY (_ : Transform) : Option ℚ := none

/-- pick(layer, ['width','height','positionX','positionY','rotate']). -/
def pickTransform (l : Layer) : Transform :=
  ⟨l.width, l.height, l.positionX, l.positionY, l.rotate⟩

/-- Lookup `initialTransforms[id]` in the record, modelled as an association
list; an absent key yields `undefined` (`none`), which the reducer guards
with `if (!transform) return;`. -/
def lookupTransform : List (Int × Transform) → Int → Option Transform
  | [], _ => none
  | (k, t) :: rest, id => if k = id then some t else lookupTransform rest id

/-- Record assignment `initialTransforms[id] = t`: overwrite the entry for an
existing key, otherwise add a new one. -/
def insertTransform : List (Int × Transform) → Int → Transform → List (Int × Transform)
  | [], k, t => [(k, t)]
  | (k0, t0) :: rest, k, t =>
    if k0 = k then (k0, t) :: rest else (k0, t0) :: insertTransform rest k t

/-- interface State: the layer collection plus the per-gesture snapshot map
`initialTransforms : Record<Layer['id'], Transform>`. -/
structure State where
  layers : List Layer
  initialTransforms : List (Int × Transform)
deriving DecidableEq

/-- const initialState: one seeded layer
`{id:1, width:200, height:100, positionX:0, positionY:0, rotate:0}` and an
empty snapshot map. -/
def initialState : State :=
  { layers := [{ id := 1, width := 200, height := 100,
                 positionX := 0, positionY := 0, rotate := 0 }],
    initialTransforms := [] }

/-- The closed union KnownLayerActions handled by the reducer's switch. -/
inductive Action where
  | moveStarted (id : Int)
  | moved (dx dy : ℚ)
  | moveEnded
  | resized (dx dy : ℚ)
  | rotated (id : Int) (nextTheta : ℚ)
deriving DecidableEq

/-- The runtime error raised inside the `layer/resized` case: the expression
`x + dx` references the identifiers `x` and `y`, which are bound nowhere in
that scope, so evaluating the case for any layer that has a snapshot throws a
ReferenceError (and is a compile error in TypeScript). -/
inductive JsError where
  | referenceError
deriving DecidableEq

/-- The body of one layer iteration of the `layer/moved` case:

    const transform = state.initialTransforms[layer.id];
    if (!transform) { return; }
    const { x, y } = transform;
    layer.x = x + dx;
    layer.y = y + dy;

`transform` has no `x`/`y` keys, so the destructuring yields `undefined` and
the assignments store `undefined + dx = NaN` into the dynamically created
properties `x`/`y` of the layer; `positionX`/`positionY` are never written. -/
def movedLayer (transforms : List (Int × Transform)) (dx dy : ℚ) (l : Layer) : Layer :=
  match lookupTransform transforms l.id with
  | none => l
  | some t =>
    { l with propX := some (jsAdd t.readX dx), propY := some (jsAdd t.readY dy) }

/-- The `layer/rotated` case: `state.layers.find(layer => layer.id === id)`
returns the first layer with the given id; if found, its `rotate` field is
set to `nextTheta`; otherwise nothing happens. -/
def rotateFirst : List Layer → Int → ℚ → List Layer
  | [], _, _ => []
  | l :: rest, id, θ =>
    if l.id = id then { l with rotate := θ } :: rest
    else l :: rotateFirst rest id θ

/-- The `layer/moveStarted` case:
`state.layers.forEach(layer => state.initialTransforms[layer.id] = pick(layer, ...))`,
a left-to-right fold over the layer collection writing each layer's snapshot
into the existing record. -/
def snapshotAll : List Layer → List (Int × Transform) → List (Int × Transform)
  | [], m => m
  | l :: rest, m => snapshotAll rest (insertTransform m l.id (pickTransform l))

/-- The state produced by `produce(currentState, recipe)` inside the reducer:
the new state when the recipe runs to completion (immer returns the base
state unchanged when the draft was not written), or the ReferenceError
thrown out of the `layer/resized` case when some layer has a snapshot
(evaluation of the unbound `x + dx` throws before any draft write, so no
partial update survives). -/
def reduceDraft (s : State) (a : Action) : Except JsError State :=
  match a with
  | .moveStarted _ =>
    .ok { s with initialTransforms := snapshotAll s.layers s.initialTransforms }
  | .moved dx dy =>
    .ok { s with layers := s.layers.map (movedLayer s.initialTransforms dx dy) }
  | .moveEnded =>
    -- state.initialTransforms = {};
    .ok { s with initialTransforms := [] }
  | .resized _ _ =>
    -- each iteration guards `if (!transform) return;` and then evaluates the
    -- unbound identifier `x`, so the first layer with a snapshot throws
    if s.layers.any fun l => (lookupTransform s.initialTransforms l.id).isSome
    then .error .referenceError
    else .ok s
  | .rotated id θ =>
    .ok { s with layers := rotateFirst s.layers id θ }

/-- JavaScript `undefined`, the value a function returns when control falls
off the end of its body. -/
inductive JsUndefined where
  | undefined
deriving DecidableEq

/-- const reducer = (currentState = initialState, action) => {
      produce(currentState, state => { ... });
    }

The arrow function body evaluates `produce(currentState, ...)` as a bare
expression statement and has no `return`, so every successful call returns
`undefined`; an exception thrown inside the recipe propagates. -/
def reducer (s : State) (a : Action) : Except JsError JsUndefined :=
  (reduceDraft s a).map fun _ => .undefined

/-- C1: claimed, the `layer/moved` case sets each snapshotted layer's
position to `snapshot.position + (dx, dy)`.  In the source it instead
destructures the absent properties `x`/`y` from the snapshot (`undefined`)
and assigns `layer.x = undefined + dx = NaN`, `layer.y = undefined + dy = NaN`;
after `moveStarted` and `moved(15, -5)` the seeded layer still has
`positionX = 0`, `positionY = 0`, with `NaN` stored in the added `x`/`y`
properties, instead of the claimed `(15, -5)`. -/
theorem moved_writes_nan_xy_not_position :
    (reduceDraft initialState (Action.moveStarted 1)).bind
        (fun s1 => reduceDraft s1 (Action.moved 15 (-5))) =
      Except.ok
        { layers := [{ id := 1, width := 200, height := 100,
                       positionX := 0, positionY := 0, rotate := 0,
                       propX := some JsNum.nan, propY := some JsNum.nan }],
          initialTransforms := [(1, ⟨200, 100, 0, 0, 0⟩)] } := by
  rfl

/-- C2: claimed, `resized(50, 20)` after `moveStarted` takes the seeded layer
to width 250 and height 120.  In the source the `layer/resized` case
evaluates `x + dx` with `x` (and `y`) unbound, so as soon as one layer has a
snapshot the case throws a ReferenceError instead of resizing anything. -/
theorem resized_references_unbound_x :
    (reduceDraft initialState (Action.moveStarted 1)).bind
        (fun s1 => reduceDraft s1 (Action.resized 50 20)) =
      Except.error JsError.referenceError := by
  rfl

/-- C3: claimed, `reduce(state, action)` returns the new collection on any
change and the identical state when nothing changes.  The source reducer's
body evaluates `produce(currentState, ...)` without a `return` statement, so
every call either returns `undefined` or propagates the ReferenceError of
the `layer/resized` case; no state value is ever returned to the caller. -/
theorem reducer_never_returns_state (s : State) (a : Action) :
    reducer s a = Except.ok JsUndefined.undefined ∨
      reducer s a = Except.error JsError.referenceError := by
  cases hd : reduceDraft s a with
  | ok s' => exact Or.inl (by simp [reducer, hd, Except.map])
  | error e => exact Or.inr (by cases e; simp [reducer, hd, Except.map])

/-- C4: the `layer/moveEnded` case does clear the whole snapshot map and
touches no layer field, for every prior state; but in the end-to-end
scenario (`moveStarted`, `moved(15, -5)`, `moveEnded` from the seeded state)
the position is still `(0, 0)` rather than the claimed `(15, -5)`, because
the `layer/moved` case never writes `positionX`/`positionY`. -/
theorem moveEnded_clears_snapshots_but_position_still_zero :
    (∀ s : State, reduceDraft s Action.moveEnded =
      Except.ok { s with initialTransforms := [] }) ∧
    (((reduceDraft initialState (Action.moveStarted 1)).bind
        (fun s1 => reduceDraft s1 (Action.moved 15 (-5)))).bind
        (fun s2 => reduceDraft s2 Action.moveEnded)) =
      Except.ok
        { layers := [{ id := 1, width := 200, height := 100,
                       positionX := 0, positionY := 0, rotate := 0,
                       propX := some JsNum.nan, propY := some JsNum.nan }],
          initialTransforms := [] } := by
  exact ⟨fun s => rfl, rfl⟩

lemma rotateFirst_eq_of_forall_ne (ls : List Layer) (id : Int) (θ : ℚ)
    (h : ∀ l ∈ ls, l.id ≠ id) : rotateFirst ls id θ = ls := by
  induction ls with
  | nil => rfl
  | cons a t ih =>
    have ha : a.id ≠ id := h a (List.mem_cons_self a t)
    simp only [rotateFirst, if_neg ha]
    rw [ih fun l hl => h l (List.mem_cons_of_mem a hl)]

lemma rotateFirst_eq_set (ls : List Layer) (id : Int) (θ : ℚ) (i : Nat)
    (hi : i < ls.length) (hhit : (ls.get ⟨i, hi⟩).id = id)
    (hfirst : ∀ (j : Nat) (hj : j < ls.length), j < i → (ls.get ⟨j, hj⟩).id ≠ id) :
    rotateFirst ls id θ = ls.set i { ls.get ⟨i, hi⟩ with rotate := θ } := by
  induction ls generalizing i with
  | nil => exact absurd hi (Nat.not_lt_zero i)
  | cons a t ih =>
    cases i with
    | zero =>
      simp only [List.get] at hhit
      simp [rotateFirst, hhit, List.set]
    | succ n =>
      have ha : a.id ≠ id := hfirst 0 (Nat.succ_le_succ (Nat.zero_le _)) (Nat.succ_pos n)
      have hn : n < t.length := Nat.lt_of_succ_lt_succ hi
      simp only [rotateFirst, if_neg ha, List.set, List.get]
      rw [ih n hn hhit fun j hj hji =>
        hfirst (j + 1) (Nat.succ_lt_succ hj) (Nat.succ_lt_succ hji)]

/-- C5: for `rotated(id, θ)`, an unknown id leaves the whole state unchanged;
a known id (first occurrence at index `i`) sets exactly that layer's
`rotate` field to `θ` — the result is the old collection with only entry `i`
replaced by the same layer with a new `rotate` — and the snapshot map is
untouched. -/
theorem rotated_updates_exactly_target (s : State) (id : Int) (θ : ℚ) :
    ((∀ l ∈ s.layers, l.id ≠ id) →
      reduceDraft s (Action.rotated id θ) = Except.ok s) ∧
    (∀ (i : Nat) (hi : i < s.layers.length),
      (s.layers.get ⟨i, hi⟩).id = id →
      (∀ (j : Nat) (hj : j < s.layers.length), j < i →
        (s.layers.get ⟨j, hj⟩).id ≠ id) →
      reduceDraft s (Action.rotated id θ) =
        Except.ok
          { s with layers := s.layers.set i { s.layers.get ⟨i, hi⟩ with rotate := θ } }) := by
  constructor
  · intro h
    simp only [reduceDraft, rotateFirst_eq_of_forall_ne s.layers id θ h]
  · intro i hi hhit hfirst
    simp only [reduceDraft, rotateFirst_eq_set s.layers id θ i hi hhit hfirst]

/-- Witness for C5: rotating the seeded layer (id 1) to angle 3 sets exactly
its `rotate` field. -/
theorem rotated_updates_exactly_target_witness :
    reduceDraft initialState (Action.rotated 1 3) =
      Except.ok { layers := [{ id := 1, width := 200, height := 100,
                               positionX := 0, positionY := 0, rotate := 3 }],
                  initialTransforms := [] } :=
  (rotated_updates_exactly_target initialState 1 3).2 0 (by decide) (by decide)
    (fun j _ hji => absurd hji (Nat.not_lt_zero j))

lemma movedLayer_eq_of_none (tr : List (Int × Transform)) (dx dy : ℚ) (l : Layer)
    (h : lookupTransform tr l.id = none) : movedLayer tr dx dy l = l := by
  unfold movedLayer
  rw [h]

lemma map_eq_self_of_fix (f : Layer → Layer) (ls : List Layer)
    (h : ∀ l ∈ ls, f l = l) : ls.map f = ls := by
  induction ls with
  | nil => rfl
  | cons a t ih =>
    rw [List.map_cons, h a (List.mem_cons_self a t),
      ih fun l hl => h l (List.mem_cons_of_mem a hl)]

/-- C7: a layer without a snapshot entry is left untouched by the per-layer
body of `layer/moved`; and when no layer has a snapshot, both `moved` and
`resized` return the state unchanged and raise no error (the `resized`
guard `if (!transform) return;` fires before the faulty line is reached). -/
theorem no_snapshot_moved_resized_noop (s : State) (dx dy : ℚ) :
    (∀ l ∈ s.layers, lookupTransform s.initialTransforms l.id = none →
      movedLayer s.initialTransforms dx dy l = l) ∧
    ((∀ l ∈ s.layers, lookupTransform s.initialTransforms l.id = none) →
      reduceDraft s (Action.moved dx dy) = Except.ok s ∧
      reduceDraft s (Action.resized dx dy) = Except.ok s) := by
  constructor
  · intro l _ h
    exact movedLayer_eq_of_none s.initialTransforms dx dy l h
  · intro h
    constructor
    · simp only [reduceDraft,
        map_eq_self_of_fix (movedLayer s.initialTransforms dx dy) s.layers
          fun l hl => movedLayer_eq_of_none s.initialTransforms dx dy l (h l hl)]
    · have hany :
          (s.layers.any fun l =>
            (lookupTransform s.initialTransforms l.id).isSome) = false := by
        rw [List.any_eq_false]
        intro l hl
        simp [h l hl]
      simp only [reduceDraft, hany, Bool.false_eq_true, if_false]

/-- Witness for C7: on the initial state (empty snapshot map), `moved(3, 4)`
and `resized(3, 4)` both leave the state exactly as it was. -/
theorem no_snapshot_moved_resized_noop_witness :
    reduceDraft initialState (Action.moved 3 4) = Except.ok initialState ∧
    reduceDraft initialState (Action.resized 3 4) = Except.ok initialState :=
  (no_snapshot_moved_resized_noop initialState 3 4).2 (by decide)

/-- The invariant of C8: every id that has an entry in the snapshot map is
the id of a layer present in the collection. -/
def SnapshotInv (s : State) : Prop :=
  ∀ p ∈ s.initialTransforms, ∃ l ∈ s.layers, l.id = p.1

/-- States of the gesture engine reachable from `initialState` through
successful reductions. -/
inductive Reachable : State → Prop where
  | init : Reachable initialState
  | step (s s' : State) (a : Action) (hs : Reachable s)
      (h : reduceDraft s a = Except.ok s') : Reachable s'

lemma mem_insertTransform {m : List (Int × Transform)} {k : Int} {t : Transform}
    {p : Int × Transform} (hp : p ∈ insertTransform m k t) : p.1 = k ∨ p ∈ m := by
  induction m with
  | nil =>
    simp only [insertTransform, List.mem_singleton] at hp
    exact Or.inl (by rw [hp])
  | cons q rest ih =>
    by_cases hk : q.1 = k
    · rw [show insertTransform (q :: rest) k t = (q.1, t) :: rest by
        simp [insertTransform, hk]] at hp
      rcases List.mem_cons.mp hp with h | h
      · exact Or.inl (by rw [h, hk])
      · exact Or.inr (List.mem_cons_of_mem q h)
    · rw [show insertTransform (q :: rest) k t = q :: insertTransform rest k t by
        simp [insertTransform, hk]] at hp
      rcases List.mem_cons.mp hp with h | h
      · exact Or.inr (by rw [h]; exact List.mem_cons_self q rest)
      · rcases ih h with h1 | h1
        · exact Or.inl h1
        · exact Or.inr (List.mem_cons_of_mem q h1)

lemma mem_snapshotAll {layers : List Layer} {m : List (Int × Transform)}
    {p : Int × Transform} (hp : p ∈ snapshotAll layers m) :
    (∃ l ∈ layers, l.id = p.1) ∨ p ∈ m := by
  induction layers generalizing m with
  | nil => exact Or.inr hp
  | cons a t ih =>
    rw [snapshotAll] at hp
    rcases ih hp with h | h
    · obtain ⟨l, hl, hid⟩ := h
      exact Or.inl ⟨l, List.mem_cons_of_mem a hl, hid⟩
    · rcases mem_insertTransform h with h1 | h1
      · exact Or.inl ⟨a, List.mem_cons_self a t, h1.symm⟩
      · exact Or.inr h1

lemma movedLayer_id (tr : List (Int × Transform)) (dx dy : ℚ) (l : Layer) :
    (movedLayer tr dx dy l).id = l.id := by
  unfold movedLayer
  cases lookupTransform tr l.id <;> rfl

lemma rotateFirst_map_id (ls : List Layer) (id : Int) (θ : ℚ) :
    (rotateFirst ls id θ).map Layer.id = ls.map Layer.id := by
  induction ls with
  | nil => rfl
  | cons a t ih =>
    by_cases h : a.id = id <;> simp [rotateFirst, h, ih]

lemma snapshotInv_preserved {s s' : State} {a : Action}
    (hInv : SnapshotInv s) (h : reduceDraft s a = Except.ok s') : SnapshotInv s' := by
  cases a with
  | moveStarted id =>
    simp only [reduceDraft, Except.ok.injEq] at h
    subst h
    intro p hp
    rcases mem_snapshotAll hp with h1 | h1
    · exact h1
    · exact hInv p h1
  | moved dx dy =>
    simp only [reduceDraft, Except.ok.injEq] at h
    subst h
    intro p hp
    obtain ⟨l, hl, hid⟩ := hInv p hp
    exact ⟨movedLayer s.initialTransforms dx dy l,
      List.mem_map_of_mem _ hl, by rw [movedLayer_id]; exact hid⟩
  | moveEnded =>
    simp only [reduceDraft, Except.ok.injEq] at h
    subst h
    intro p hp
    exact absurd hp (List.not_mem_nil p)
  | resized dx dy =>
    simp only [reduceDraft] at h
    by_cases hc :
        (s.layers.any fun l => (lookupTransform s.initialTransforms l.id).isSome) = true
    · rw [if_pos hc] at h
      exact absurd h (by simp)
    · rw [if_neg hc] at h
      simp only [Except.ok.injEq] at h
      subst h
      exact hInv
  | rotated id θ =>
    simp only [reduceDraft, Except.ok.injEq] at h
    subst h
    intro p hp
    obtain ⟨l, hl, hid⟩ := hInv p hp
    have hmem : p.1 ∈ (rotateFirst s.layers id θ).map Layer.id := by
      rw [rotateFirst_map_id, ← hid]
      exact List.mem_map_of_mem Layer.id hl
    obtain ⟨l', hl', hid'⟩ := List.mem_map.mp hmem
    exact ⟨l', hl', hid'⟩

/-- C8: every state reachable from `initialState` through the reducer
satisfies the snapshot-id invariant (each snapshot entry's key is the id of
some layer in the collection), and every successful reduction step preserves
that invariant from any state satisfying it. -/
theorem snapshot_ids_have_layers :
    (∀ s : State, Reachable s → SnapshotInv s) ∧
    (∀ (s : State) (a : Action) (s' : State),
      SnapshotInv s → reduceDraft s a = Except.ok s' → SnapshotInv s') := by
  constructor
  · intro s hs
    induction hs with
    | init => exact fun p hp => absurd hp (List.not_mem_nil p)
    | step s s' a _ h ih => exact snapshotInv_preserved ih h
  · intro s a s' hInv h
    exact snapshotInv_preserved hInv h

/-- Witness for C8: the initial state is reachable and satisfies the
invariant. -/
theorem snapshot_ids_have_layers_witness : SnapshotInv initialState :=
  snapshot_ids_have_layers.1 initialState Reachable.init

/-- Math.atan2(y, x): the two-argument arctangent, the angle of the point
(x, y), with values in (-π, π]. -/
noncomputable def atan2 (y x : ℝ) : ℝ := Complex.arg (Complex.mk x y)

/-- The RotateHandler's onMove: vx = x - cx (adjacent side), vy = y - cy
(opposite side), nextTheta = Math.atan2(vy, vx); this value is dispatched as
the absolute angle of the `rotated` action, recomputed from the live pointer
position (x, y) and the pivot (cx, cy) on each move event. -/
noncomputable def nextTheta (cx cy x y : ℝ) : ℝ := atan2 (y - cy) (x - cx)

/-- C6: the angle handed to `rotated` is exactly `atan2(y - cy, x - cx)` of
the pivot-relative pointer offset, it always lies in (-π, π], and for pivot
(100, 50) with pointer (100, 150) it is π/2. -/
theorem nextTheta_is_atan2_of_pivot_offset :
    (∀ cx cy x y : ℝ, nextTheta cx cy x y = atan2 (y - cy) (x - cx)) ∧
    (∀ cx cy x y : ℝ, nextTheta cx cy x y ∈ Set.Ioc (-Real.pi) Real.pi) ∧
    nextTheta 100 50 100 150 = Real.pi / 2 := by
  refine ⟨fun _ _ _ _ => rfl, fun cx cy x y => Complex.arg_mem_Ioc _, ?_⟩
  show Complex.arg (Complex.mk (100 - 100) (150 - 50)) = Real.pi / 2
  rw [show (100 : ℝ) - 100 = 0 by norm_num, show (150 : ℝ) - 50 = 100 by norm_num,
    Complex.mk_eq_add_mul_I, Complex.ofReal_zero, zero_add,
    Complex.arg_real_mul Complex.I (by norm_num : (0 : ℝ) < 100)]
  exact Complex.arg_I

/-- One contact point of a TouchEvent, with its client coordinates. -/
structure Touch where
  clientX : ℚ
  clientY : ℚ
deriving DecidableEq

/-- The part of a raw TouchEvent that `_onTouchStart` inspects: the
truthiness of `e.target` and `e.currentTarget`, and the `changedTouches`
contact-point list. -/
structure TouchEvent where
  targetPresent : Bool
  currentTargetPresent : Bool
  changedTouches : List Touch
deriving DecidableEq

/-- The mutable per-instance state of a TouchDraggable: `initialTouch`,
which is `undefined` (`none`) until a gesture starts. -/
structure DragState where
  initialTouch : Option (ℚ × ℚ) := none
deriving DecidableEq

/-- _onTouchStart: after stopPropagation, return without effect when
`!e.currentTarget || !e.target`, or when `e.changedTouches.length !== 1`;
otherwise record `this.initialTouch = { x, y }` from the single contact
point and emit the gesture start `onDragStart(x, y, e)` (the second
component of the result). -/
def onTouchStart (d : DragState) (e : TouchEvent) : DragState × Option (ℚ × ℚ) :=
  if !e.currentTargetPresent || !e.targetPresent then (d, none)
  else if e.changedTouches.length ≠ 1 then (d, none)
  else
    let t := e.changedTouches.headD ⟨0, 0⟩
    ({ initialTouch := some (t.clientX, t.clientY) }, some (t.clientX, t.clientY))

/-- The Canvas wiring of a gesture start: the normalizer's emitted
`GestureStart` invokes `onDragStart`, which dispatches
`LayerActions.moveStarted(layerId)` to the reducer; when the normalizer
ignored the event, no dispatch happens and the engine state is untouched. -/
def handleTouchStart (layerId : Int) (d : DragState) (st : State) (e : TouchEvent) :
    DragState × Except JsError State :=
  match onTouchStart d e with
  | (d', none) => (d', Except.ok st)
  | (d', some _) => (d', reduceDraft st (Action.moveStarted layerId))

/-- C9: a touch start whose event lacks a target or current-target, or whose
contact-point count differs from one, is ignored: the normalizer emits no
gesture start and records no initial touch, and consequently no
`moveStarted` is dispatched, so the engine state (and in particular its
snapshot map) is unchanged. -/
theorem multi_touch_start_ignored (d : DragState) (st : State) (e : TouchEvent)
    (layerId : Int)
    (h : e.targetPresent = false ∨ e.currentTargetPresent = false ∨
      e.changedTouches.length ≠ 1) :
    onTouchStart d e = (d, none) ∧
    handleTouchStart layerId d st e = (d, Except.ok st) := by
  have h1 : onTouchStart d e = (d, none) := by
    unfold onTouchStart
    by_cases hb : (!e.currentTargetPresent || !e.targetPresent) = true
    · rw [if_pos hb]
    · rw [if_neg hb]
      have hlen : e.changedTouches.length ≠ 1 := by
        rcases h with h | h | h
        · rw [h] at hb
          simp at hb
        · rw [h] at hb
          simp at hb
        · exact h
      rw [if_pos hlen]
  refine ⟨h1, ?_⟩
  unfold handleTouchStart
  rw [h1]

/-- Witness for C9: a two-contact-point touch start on the initial state is
ignored entirely. -/
theorem multi_touch_start_ignored_witness :
    onTouchStart { initialTouch := none }
        { targetPresent := true, currentTargetPresent := true,
          changedTouches := [⟨0, 0⟩, ⟨10, 10⟩] } =
      ({ initialTouch := none }, none) ∧
    handleTouchStart 1 { initialTouch := none } initialState
        { targetPresent := true, currentTargetPresent := true,
          changedTouches := [⟨0, 0⟩, ⟨10, 10⟩] } =
      ({ initialTouch := none }, Except.ok initialState) :=
  multi_touch_start_ignored { initialTouch := none } initialState
    { targetPresent := true, currentTargetPresent := true,
      changedTouches := [⟨0, 0⟩, ⟨10, 10⟩] } 1
    (Or.inr (Or.inr (by decide)))

end RectLayer
